import Mathlib

set_option maxRecDepth 100000

/-!
Verification of packages/@react-spectrum/s2/style/spectrum-theme.ts.

The TypeScript module is shallowly embedded below. JavaScript numbers are
modelled as rationals (all arithmetic appearing in the theme is exact
decimal arithmetic), JavaScript number-to-string conversion is modelled by
a terminating decimal printer, fallible code returns Except, and the
optional MacroContext receiver (the value of `this` inside the helper
functions) is modelled as `Option Unit` (a context object is truthy,
`undefined` is falsy).

Rational arithmetic is routed through `Rat.divInt`/`mkRat` so that every
definition evaluates by kernel reduction; the lemmas `jsDiv_eq_div` and
`jsMul_eq_mul` relate this executable layer to the field operations on ℚ
used in the statements of the theorems.
-/

namespace SpectrumTheme

/-- Executable division on ℚ (equal to field division for a nonzero
divisor, see jsDiv_eq_div). -/
def jsDiv (a b : ℚ) : ℚ :=
  Rat.divInt (a.num * (b.den : Int)) (b.num * (a.den : Int))

/-- Executable multiplication on ℚ (equal to field multiplication, see
jsMul_eq_mul). -/
def jsMul (a b : ℚ) : ℚ :=
  Rat.divInt (a.num * b.num) ((a.den : Int) * (b.den : Int))

/-- Executable addition on ℚ. -/
def jsAdd (a b : ℚ) : ℚ :=
  Rat.divInt (a.num * (b.den : Int) + b.num * (a.den : Int)) ((a.den : Int) * (b.den : Int))

/-- Executable subtraction on ℚ. -/
def jsSub (a b : ℚ) : ℚ :=
  Rat.divInt (a.num * (b.den : Int) - b.num * (a.den : Int)) ((a.den : Int) * (b.den : Int))

theorem jsMul_eq_mul (a b : ℚ) : jsMul a b = a * b := by
  have ha : ((a.den : ℚ)) ≠ 0 := by exact_mod_cast a.den_nz
  have hb : ((b.den : ℚ)) ≠ 0 := by exact_mod_cast b.den_nz
  rw [jsMul, Rat.divInt_eq_div]
  push_cast
  conv_rhs => rw [← Rat.num_div_den a, ← Rat.num_div_den b]
  field_simp

theorem jsDiv_eq_div (a b : ℚ) (hb : b ≠ 0) : jsDiv a b = a / b := by
  have ha : ((a.den : ℚ)) ≠ 0 := by exact_mod_cast a.den_nz
  have hbd : ((b.den : ℚ)) ≠ 0 := by exact_mod_cast b.den_nz
  have hbn : ((b.num : ℚ)) ≠ 0 := by
    exact_mod_cast Rat.num_ne_zero.mpr hb
  have hA : (a.num : ℚ) = a * a.den := (div_eq_iff ha).mp (Rat.num_div_den a)
  have hB : (b.num : ℚ) = b * b.den := (div_eq_iff hbd).mp (Rat.num_div_den b)
  rw [jsDiv, Rat.divInt_eq_div]
  push_cast
  rw [div_eq_div_iff (mul_ne_zero hbn ha) hb, hA, hB]
  ring

theorem jsAdd_eq_add (a b : ℚ) : jsAdd a b = a + b := by
  have ha : ((a.den : ℚ)) ≠ 0 := by exact_mod_cast a.den_nz
  have hb : ((b.den : ℚ)) ≠ 0 := by exact_mod_cast b.den_nz
  rw [jsAdd, Rat.divInt_eq_div]
  push_cast
  conv_rhs => rw [← Rat.num_div_den a, ← Rat.num_div_den b]
  field_simp

theorem jsSub_eq_sub (a b : ℚ) : jsSub a b = a - b := by
  have ha : ((a.den : ℚ)) ≠ 0 := by exact_mod_cast a.den_nz
  have hb : ((b.den : ℚ)) ≠ 0 := by exact_mod_cast b.den_nz
  rw [jsSub, Rat.divInt_eq_div]
  push_cast
  conv_rhs => rw [← Rat.num_div_den a, ← Rat.num_div_den b]
  field_simp
  ring

/-- The touch scale factor 1.25 of the theme, in executable form. -/
def touchScale : ℚ := mkRat 5 4

theorem touchScale_eq : touchScale = (1.25 : ℚ) := by
  rw [show (1.25 : ℚ) = Rat.ofScientific 125 true 2 from rfl, Rat.ofScientific_true_def]
  decide

/-- JavaScript Number#toString for a nonnegative rational: integer part,
then a decimal point and fractional digits when the fraction is nonzero.
The fuel bound of 20 digits covers every finite decimal occurring in the
theme exactly. -/
def fracDigits : Nat → ℚ → List Char
  | 0, _ => []
  | fuel + 1, q =>
    if q = 0 then []
    else
      let q10 := jsMul q 10
      Nat.digitChar q10.floor.toNat :: fracDigits fuel (jsSub q10 (Rat.ofInt q10.floor))

/-- Nonnegative part of the JS number printer. -/
def numToStringNN (q : ℚ) : String :=
  let ip := q.floor.toNat
  let f := jsSub q (Rat.ofInt q.floor)
  if f = 0 then toString ip
  else toString ip ++ "." ++ String.mk (fracDigits 20 f)

/-- JavaScript number-to-string conversion (template literal / `+ ''`),
for rationals with a finite decimal expansion. -/
def numToString (q : ℚ) : String :=
  if q < 0 then "-" ++ numToStringNN (Rat.neg q) else numToStringNN q

/-- From spectrum-theme.ts: `pxToRem(px) = px / 16 + 'rem'`. The source
also accepts strings (parseFloat applied first); all uses relevant to the
claims pass numbers, modelled as rationals. -/
def pxToRem (px : ℚ) : String :=
  numToString (jsDiv px 16) ++ "rem"

/-- From spectrum-theme.ts: `arbitrary(ctx, value)` returns the
arbitrary-value marker `[value]` when a macro context is present (truthy)
and the plain value otherwise. -/
def arbitrary (ctx : Option Unit) (value : String) : String :=
  match ctx with
  | some _ => "[" ++ value ++ "]"
  | none => value

/-- From spectrum-theme.ts: `space(px)` wraps `pxToRem(px)` with
`arbitrary`, using the `this` macro context. -/
def space (ctx : Option Unit) (px : ℚ) : String :=
  arbitrary ctx (pxToRem px)

/-- From spectrum-theme.ts: `fontRelative(base, baseFontSize = 14)`
returns `arbitrary(this, (base / baseFontSize) + 'em')`. The default
argument 14 is supplied explicitly by callers of this embedding. -/
def fontRelative (ctx : Option Unit) (base : ℚ) (baseFontSize : ℚ) : String :=
  arbitrary ctx (numToString (jsDiv base baseFontSize) ++ "em")

/-- From spectrum-theme.ts: the transform of the arbitrary property
`outlineOffset`: `(v, property) => ({[property]: v + 'px'})`, producing a
single declaration. -/
def outlineOffset (v : ℚ) (property : String) : List (String × String) :=
  [(property, numToString v ++ "px")]

/-- String append is associative (proved at the level of the underlying
character lists). -/
theorem stringAppendAssoc (a b c : String) : a ++ b ++ c = a ++ (b ++ c) := by
  cases a with
  | mk la =>
    cases b with
    | mk lb =>
      cases c with
      | mk lc =>
        show String.mk ((la ++ lb) ++ lc) = String.mk (la ++ (lb ++ lc))
        rw [List.append_assoc]

/-- Modelled from the spec: the token module (`./tokens`, not under src/)
exposes `colorScale(name)`, which contributes the numbered entries of a
color scale in ascending numeric declaration order; the spec fixes the
ordering contract (blue-500 immediately follows blue-400) but not the
exact step set, modelled here as 25/50/75 then hundreds up to 1600. Each
value is an opaque token reference, represented by the token name. -/
def scaleSteps : List Nat :=
  [25, 50, 75, 100, 200, 300, 400, 500, 600, 700, 800,
   900, 1000, 1100, 1200, 1300, 1400, 1500, 1600]

def colorScale (name : String) : List (String × String) :=
  scaleSteps.map (fun n => (name ++ "-" ++ toString n, "token(" ++ name ++ "-" ++ toString n ++ ")"))

/-- Modelled from the spec: `simpleColorScale(name)` from the token module
(not under src/), the numbered entries of a transparent color scale in
ascending numeric declaration order. -/
def simpleScaleSteps : List Nat :=
  [25, 50, 75, 100, 200, 300, 400, 500, 600, 700, 800, 900, 1000]

def simpleColorScale (name : String) : List (String × String) :=
  simpleScaleSteps.map (fun n => (name ++ "-" ++ toString n, "token(" ++ name ++ "-" ++ toString n ++ ")"))

/-- From spectrum-theme.ts: the palette record `color`, as an ordered
association list (JavaScript object literals preserve declaration order):
three literal entries, the color scales, the two transparent scales, and
the high contrast mode literals. -/
def color : List (String × String) :=
  [("transparent", "transparent"), ("black", "black"), ("white", "white")]
  ++ colorScale "gray" ++ colorScale "blue" ++ colorScale "red" ++ colorScale "orange"
  ++ colorScale "yellow" ++ colorScale "chartreuse" ++ colorScale "celery" ++ colorScale "green"
  ++ colorScale "seafoam" ++ colorScale "cyan" ++ colorScale "indigo" ++ colorScale "purple"
  ++ colorScale "fuchsia" ++ colorScale "magenta" ++ colorScale "pink" ++ colorScale "turquoise"
  ++ colorScale "brown" ++ colorScale "silver" ++ colorScale "cinnamon"
  ++ colorScale "accent-color" ++ colorScale "informative-color" ++ colorScale "negative-color"
  ++ colorScale "notice-color" ++ colorScale "positive-color"
  ++ simpleColorScale "transparent-white" ++ simpleColorScale "transparent-black"
  ++ [("Background", "Background"), ("ButtonBorder", "ButtonBorder"), ("ButtonFace", "ButtonFace"),
      ("ButtonText", "ButtonText"), ("Field", "Field"), ("Highlight", "Highlight"),
      ("HighlightText", "HighlightText"), ("GrayText", "GrayText"), ("Mark", "Mark"),
      ("LinkText", "LinkText")]

/-- `Object.keys(color)`: the palette keys in declaration order. -/
def colorKeys : List String := color.map Prod.fst

/-- JavaScript `Array.prototype.indexOf`: index of the first occurrence,
`none` for -1. -/
def jsIndexOf (x : String) : List String → Option Nat
  | [] => none
  | k :: rest => if k = x then some 0 else (jsIndexOf x rest).map (· + 1)

/-- The record returned by `baseColor`: the three interaction-state fields
hold `keys[index + 1]`, which is `undefined` (`none`) when out of
bounds. -/
structure BaseColorResult where
  default : String
  isHovered : Option String
  isFocusVisible : Option String
  isPressed : Option String
deriving DecidableEq

/-- From spectrum-theme.ts: the body of `baseColor`, generic over the
ordered key list it closes over. -/
def baseColorOn (keys : List String) (base : String) : Except String BaseColorResult :=
  match jsIndexOf base keys with
  | none => Except.error ("Invalid base color " ++ base)
  | some index => Except.ok ⟨base, keys[index + 1]?, keys[index + 1]?, keys[index + 1]?⟩

/-- From spectrum-theme.ts: `baseColor(base)` looks `base` up in
`Object.keys(color)`, throws when absent, and otherwise returns the record
whose interaction-state entries are the key at the following position. -/
def baseColor (base : String) : Except String BaseColorResult :=
  baseColorOn colorKeys base

/-- JavaScript indexing `color[k]`: the stored value, or `undefined` for a
missing key. -/
def colorValue (k : String) : String :=
  (List.lookup k color).getD "undefined"

/-- From spectrum-theme.ts: `lightDark(light, dark)` returns the template
literal `[light-dark(${color[light]}, ${color[dark]})]`; the function has
no MacroContext receiver, so the bracketed form is produced
unconditionally. -/
def lightDark (light dark : String) : String :=
  "[light-dark(" ++ colorValue light ++ ", " ++ colorValue dark ++ ")]"

/-- From spectrum-theme.ts: `generateSpacing(px)` maps each pixel value to
its `pxToRem` string, keyed by the pixel value (an ordered association
list standing for the generated record). -/
def generateSpacing (px : List ℚ) : List (ℚ × String) :=
  px.map (fun p => (p, pxToRem p))

/-- From spectrum-theme.ts: the pixel keys of `baseSpacing`. -/
def baseSpacingPx : List ℚ :=
  [0, 4, 8, 12, 16, 20, 24, 28, 32, 36, 40, 44, 48, 56,
   64, 80, 96, 112, 128, 144, 160, 176, 192, 208, 224, 240, 256, 288, 320, 384]

/-- From spectrum-theme.ts: `baseSpacing = generateSpacing([...])`. -/
def baseSpacing : List (ℚ × String) :=
  generateSpacing baseSpacingPx

/-- From spectrum-theme.ts: the negated pixel keys of
`negativeSpacing`. -/
def negativeSpacingPx : List ℚ :=
  [-4, -8, -12, -16, -20, -24, -28, -32, -36, -40, -44, -48, -56,
   -64, -80, -96, -112, -128, -144, -160, -176, -192, -208, -224, -240, -256, -288, -320, -384]

/-- From spectrum-theme.ts: `negativeSpacing = generateSpacing([...])`. -/
def negativeSpacing : List (ℚ × String) :=
  generateSpacing negativeSpacingPx

/-- From spectrum-theme.ts: `edgeToText(height)` interpolates the
`baseSpacing` entry for `height` into a calc expression (JavaScript
indexing yields `undefined` for a missing key). -/
def edgeToText (_ctx : Option Unit) (height : ℚ) : String :=
  "calc(" ++ (List.lookup height baseSpacing).getD "undefined" ++ " * 3 / 8)"

/-- A conditional value with a `default` and a `touch` variant, as
returned by `size` and stored in `scaledSpacing`. -/
structure SizeValue where
  default : String
  touch : String
deriving DecidableEq

/-- From spectrum-theme.ts: `size(px)` returns
`{default: arbitrary(this, pxToRem(px)), touch: arbitrary(this, pxToRem(px * 1.25))}`. -/
def size (ctx : Option Unit) (px : ℚ) : SizeValue :=
  ⟨arbitrary ctx (pxToRem px), arbitrary ctx (pxToRem (jsMul px touchScale))⟩

/-- Digit run to the natural number it denotes. -/
def digitsToNat (ds : List Char) : Nat :=
  ds.foldl (fun a c => a * 10 + (c.toNat - 48)) 0

/-- JavaScript `parseFloat` restricted to the plain decimal literals this
module produces: an optional sign, an integer digit run, and an optional
fraction; parsing stops at the first character that fits neither (the
unit suffix). -/
def jsParseFloat (s : String) : ℚ :=
  let cs := s.data
  let signed : Bool × List Char :=
    match cs with
    | c :: rest => if c = '-' then (true, rest) else if c = '+' then (false, rest) else (false, cs)
    | [] => (false, cs)
  let ip := signed.2.takeWhile Char.isDigit
  let rest := signed.2.dropWhile Char.isDigit
  let mag : ℚ :=
    match rest with
    | c :: rest2 =>
      if c = '.' then
        let fd := rest2.takeWhile Char.isDigit
        jsAdd (digitsToNat ip : ℚ) (mkRat (digitsToNat fd) (10 ^ fd.length))
      else (digitsToNat ip : ℚ)
    | [] => (digitsToNat ip : ℚ)
  if signed.1 then Rat.neg mag else mag

def isNumChar (c : Char) : Bool :=
  c.isDigit || c = '.'

/-- The JavaScript regular expression match `v.match(/[^0-9.]+/)![0]`: the
first maximal run of characters that are neither digits nor a decimal
point (the unit suffix of a generated spacing value). -/
def firstNonNumericRun (s : String) : String :=
  String.mk ((s.data.dropWhile isNumChar).takeWhile (fun c => !isNumChar c))

/-- From spectrum-theme.ts: `scaledSpacing` maps every `baseSpacing` entry
`[k, v]` to `{default: v, touch: parseFloat(v) * 1.25 + v.match(/[^0-9.]+/)![0]}`. -/
def scaledSpacing : List (ℚ × SizeValue) :=
  baseSpacing.map (fun kv =>
    (kv.1, ⟨kv.2, numToString (jsMul (jsParseFloat kv.2) touchScale) ++ firstNonNumericRun kv.2⟩))

/-- C6: for every number px, `space` invoked with a compiling context
returns the bracketed arbitrary-value marker around `pxToRem px`, and
invoked without a context returns the plain string `pxToRem px`, where
`pxToRem` divides the pixel value by 16 and appends "rem". -/
theorem C6_space_marker (px : ℚ) :
    space (some ()) px = "[" ++ pxToRem px ++ "]" ∧
    space none px = pxToRem px ∧
    pxToRem px = numToString (px / 16) ++ "rem" := by
  refine ⟨rfl, rfl, ?_⟩
  rw [pxToRem, jsDiv_eq_div px 16 (by norm_num)]

/-- C7: the `outlineOffset` arbitrary-property transform maps a numeric
value v to exactly one declaration, whose value is the number with a "px"
suffix appended. -/
theorem C7_outlineOffset_single_px (v : ℚ) (property : String) :
    outlineOffset v property = [(property, numToString v ++ "px")] ∧
    (outlineOffset v property).length = 1 :=
  ⟨rfl, rfl⟩

/-- `jsIndexOf` returns none exactly on the keys that are not present. -/
theorem jsIndexOf_eq_none_iff (x : String) (l : List String) :
    jsIndexOf x l = none ↔ x ∉ l := by
  induction l with
  | nil => simp [jsIndexOf]
  | cons a as ih =>
    by_cases hax : a = x
    · subst hax
      simp [jsIndexOf]
    · have hxa : ¬ x = a := fun hh => hax hh.symm
      simp [jsIndexOf, if_neg hax, Option.map_eq_none', ih, hxa]

/-- C1: whenever `base` occurs in the palette at position i and is not the
last key, `baseColor base` succeeds and all three interaction-state fields
equal the palette key at position i + 1 (the key immediately following
`base` in declaration order); moreover there is a reordering of the
palette keys (a permutation, leaving every stored value unchanged) under
which the `baseColor` body computes a different result for blue-400. -/
theorem C1_baseColor_positional (base : String) (i : Nat)
    (h1 : jsIndexOf base colorKeys = some i) (h2 : i + 1 < colorKeys.length) :
    (∃ nk, colorKeys[i + 1]? = some nk ∧
      baseColor base = Except.ok ⟨base, some nk, some nk, some nk⟩) ∧
    (∃ keys2, keys2.Perm colorKeys ∧
      baseColorOn keys2 "blue-400" ≠ baseColorOn colorKeys "blue-400") := by
  constructor
  · refine ⟨colorKeys[i + 1], List.getElem?_eq_getElem h2, ?_⟩
    show baseColorOn colorKeys base = _
    simp only [baseColorOn, h1, List.getElem?_eq_getElem h2]
  · refine ⟨colorKeys.take 29 ++ "blue-600" :: "blue-500" :: colorKeys.drop 31, ?_, ?_⟩
    · have hsplit : colorKeys = colorKeys.take 29 ++ "blue-500" :: "blue-600" :: colorKeys.drop 31 := by
        decide
      conv_rhs => rw [hsplit]
      exact List.Perm.append_left _ (List.Perm.swap _ _ _)
    · have hA : baseColorOn (colorKeys.take 29 ++ "blue-600" :: "blue-500" :: colorKeys.drop 31)
          "blue-400" = Except.ok ⟨"blue-400", some "blue-600", some "blue-600", some "blue-600"⟩ :=
        rfl
      have hB : baseColorOn colorKeys "blue-400" =
          Except.ok ⟨"blue-400", some "blue-500", some "blue-500", some "blue-500"⟩ := rfl
      rw [hA, hB]
      intro h
      have h3 := congrArg (fun r => (Except.toOption r).map BaseColorResult.isHovered) h
      exact absurd h3 (by decide)

/-- C1 witness: blue-400 sits at position 28 of the palette, is not the
last key, and its hover/focus/press variants are all blue-500. -/
theorem C1_baseColor_positional_witness :
    (jsIndexOf "blue-400" colorKeys = some 28 ∧ 28 + 1 < colorKeys.length) ∧
    ((∃ nk, colorKeys[28 + 1]? = some nk ∧
        baseColor "blue-400" = Except.ok ⟨"blue-400", some nk, some nk, some nk⟩) ∧
      (∃ keys2, keys2.Perm colorKeys ∧
        baseColorOn keys2 "blue-400" ≠ baseColorOn colorKeys "blue-400")) :=
  ⟨⟨by decide, by decide⟩, C1_baseColor_positional "blue-400" 28 (by decide) (by decide)⟩

/-- C2 counterexample: `lightDark` has no MacroContext receiver; invoked
outside any compiling context it still returns the bracketed
arbitrary-value marker, not the plain unbracketed string the claim
predicts for that case. -/
theorem C2_lightDark_counterexample :
    lightDark "black" "white" = "[light-dark(black, white)]" ∧
    lightDark "black" "white" ≠ "light-dark(black, white)" := by
  constructor
  · decide
  · decide

/-- C2 amended: `lightDark(light, dark)` always returns the
arbitrary-value marker `[light-dark(v_light, v_dark)]` built from the
palette values stored for the two keys, regardless of any compiling
context (it coincides with `arbitrary` applied under a present
context). -/
theorem C2_lightDark_always_marker (light dark : String) :
    lightDark light dark =
      "[light-dark(" ++ colorValue light ++ ", " ++ colorValue dark ++ ")]" ∧
    lightDark light dark =
      arbitrary (some ()) ("light-dark(" ++ colorValue light ++ ", " ++ colorValue dark ++ ")") := by
  refine ⟨rfl, ?_⟩
  have hl : ("[light-dark(" : String) = "[" ++ "light-dark(" := by decide
  have hr : (")]" : String) = ")" ++ "]" := by decide
  show "[light-dark(" ++ colorValue light ++ ", " ++ colorValue dark ++ ")]" =
    "[" ++ ("light-dark(" ++ colorValue light ++ ", " ++ colorValue dark ++ ")") ++ "]"
  rw [hl, hr]
  simp only [stringAppendAssoc]

/-- C9: `baseColor` throws (returns an error) exactly on inputs that are
not palette keys; the last palette key in declaration order, LinkText, is
not rejected: the unguarded index + 1 lookup falls off the end and all
three interaction-state fields come back undefined. -/
theorem C9_baseColor_domain :
    (∀ base : String, (∃ msg, baseColor base = Except.error msg) ↔ base ∉ colorKeys) ∧
    colorKeys.getLast? = some "LinkText" ∧
    baseColor "LinkText" = Except.ok ⟨"LinkText", none, none, none⟩ := by
  refine ⟨?_, by decide, rfl⟩
  intro base
  constructor
  · rintro ⟨msg, hmsg⟩
    rw [← jsIndexOf_eq_none_iff base colorKeys]
    cases h : jsIndexOf base colorKeys with
    | none => rfl
    | some index =>
      exfalso
      unfold baseColor baseColorOn at hmsg
      rw [h] at hmsg
      simp at hmsg
  · intro hmem
    refine ⟨"Invalid base color " ++ base, ?_⟩
    unfold baseColor baseColorOn
    rw [(jsIndexOf_eq_none_iff base colorKeys).mpr hmem]

/-- C10: touch scaling is the fixed ratio 1.25: `size px` returns the
conditional record whose touch entry is `pxToRem (px * 1.25)` and whose
default entry is `pxToRem px` (each passed through `arbitrary` with the
ambient context), and every `scaledSpacing` entry parses back to a touch
value 1.25 times its default value, with an identical unit suffix. -/
theorem C10_touch_is_1_25 :
    (∀ (ctx : Option Unit) (px : ℚ),
      size ctx px = ⟨arbitrary ctx (pxToRem px), arbitrary ctx (pxToRem (px * 1.25))⟩) ∧
    (∀ e ∈ scaledSpacing,
      jsParseFloat e.2.touch = jsParseFloat e.2.default * 1.25 ∧
      firstNonNumericRun e.2.touch = firstNonNumericRun e.2.default) := by
  constructor
  · intro ctx px
    rw [size, jsMul_eq_mul, touchScale_eq]
  · have hexe : ∀ e ∈ scaledSpacing,
        jsParseFloat e.2.touch = jsMul (jsParseFloat e.2.default) touchScale ∧
        firstNonNumericRun e.2.touch = firstNonNumericRun e.2.default := by
      decide
    intro e he
    refine ⟨?_, (hexe e he).2⟩
    rw [(hexe e he).1, jsMul_eq_mul, touchScale_eq]

/-- C8: the runtime helpers are deterministic: equal arguments (and an
equal macro-context receiver) give equal results. Absence of mutation
holds by construction of the embedding: none of the source functions
assigns to the palette, the spacing tables, or any other shared
structure, which the purely functional definitions above reflect. -/
theorem C8_helpers_deterministic (ctx : Option Unit) (x y b1 b2 : ℚ)
    (l1 l2 d1 d2 s t : String)
    (hxy : x = y) (hb : b1 = b2) (hl : l1 = l2) (hd : d1 = d2) (hst : s = t) :
    pxToRem x = pxToRem y ∧
    fontRelative ctx x b1 = fontRelative ctx y b2 ∧
    edgeToText ctx x = edgeToText ctx y ∧
    space ctx x = space ctx y ∧
    size ctx x = size ctx y ∧
    lightDark l1 d1 = lightDark l2 d2 ∧
    baseColor s = baseColor t := by
  subst hxy
  subst hb
  subst hl
  subst hd
  subst hst
  exact ⟨rfl, rfl, rfl, rfl, rfl, rfl, rfl⟩

/-- C8 witness: the determinism conjunction instantiated at concrete
arguments. -/
theorem C8_helpers_deterministic_witness :
    pxToRem 8 = pxToRem 8 ∧
    fontRelative none 8 14 = fontRelative none 8 14 ∧
    edgeToText none 8 = edgeToText none 8 ∧
    space none 8 = space none 8 ∧
    size none 8 = size none 8 ∧
    lightDark "black" "white" = lightDark "black" "white" ∧
    baseColor "blue-400" = baseColor "blue-400" :=
  C8_helpers_deterministic none 8 8 14 14 "black" "black" "white" "white"
    "blue-400" "blue-400" rfl rfl rfl rfl rfl

/-- A JavaScript style value: a number or a string. -/
inductive JSVal where
  | num (q : ℚ)
  | str (s : String)
deriving DecidableEq

/-- A shorthand registration: a fixed list of base properties, or a
function producing a complete mapping. -/
inductive ShorthandDef where
  | props (ps : List String)
  | fn (f : JSVal → List (String × JSVal))

/-- From spectrum-theme.ts: the function-form `transition` shorthand:
`value => ({transition: value, transitionDuration: 150, transitionTimingFunction: 'default'})`. -/
def transitionShorthand (value : JSVal) : List (String × JSVal) :=
  [("transition", value), ("transitionDuration", JSVal.num 150),
   ("transitionTimingFunction", JSVal.str "default")]

/-- From spectrum-theme.ts: the function-form `animation` shorthand. -/
def animationShorthand (value : JSVal) : List (String × JSVal) :=
  [("animation", value), ("animationDuration", JSVal.num 150),
   ("animationTimingFunction", JSVal.str "default")]

/-- From spectrum-theme.ts: the function-form `truncate` shorthand
(ignores its input value). -/
def truncateShorthand (_value : JSVal) : List (String × JSVal) :=
  [("overflowX", JSVal.str "hidden"), ("overflowY", JSVal.str "hidden"),
   ("textOverflow", JSVal.str "ellipsis"), ("whiteSpace", JSVal.str "nowrap")]

/-- From spectrum-theme.ts: the `shorthands` record passed to
`createTheme`, in declaration order. -/
def shorthands : List (String × ShorthandDef) :=
  [("padding", ShorthandDef.props ["paddingTop", "paddingBottom", "paddingStart", "paddingEnd"]),
   ("paddingX", ShorthandDef.props ["paddingStart", "paddingEnd"]),
   ("paddingY", ShorthandDef.props ["paddingTop", "paddingBottom"]),
   ("margin", ShorthandDef.props ["marginTop", "marginBottom", "marginStart", "marginEnd"]),
   ("marginX", ShorthandDef.props ["marginStart", "marginEnd"]),
   ("marginY", ShorthandDef.props ["marginTop", "marginBottom"]),
   ("scrollPadding", ShorthandDef.props
     ["scrollPaddingTop", "scrollPaddingBottom", "scrollPaddingStart", "scrollPaddingEnd"]),
   ("scrollPaddingX", ShorthandDef.props ["scrollPaddingStart", "scrollPaddingEnd"]),
   ("scrollPaddingY", ShorthandDef.props ["scrollPaddingTop", "scrollPaddingBottom"]),
   ("scrollMargin", ShorthandDef.props
     ["scrollMarginTop", "scrollMarginBottom", "scrollMarginStart", "scrollMarginEnd"]),
   ("scrollMarginX", ShorthandDef.props ["scrollMarginStart", "scrollMarginEnd"]),
   ("scrollMarginY", ShorthandDef.props ["scrollMarginTop", "scrollMarginBottom"]),
   ("borderWidth", ShorthandDef.props
     ["borderTopWidth", "borderBottomWidth", "borderStartWidth", "borderEndWidth"]),
   ("borderXWidth", ShorthandDef.props ["borderStartWidth", "borderEndWidth"]),
   ("borderYWidth", ShorthandDef.props ["borderTopWidth", "borderBottomWidth"]),
   ("borderRadius", ShorthandDef.props
     ["borderTopStartRadius", "borderTopEndRadius", "borderBottomStartRadius", "borderBottomEndRadius"]),
   ("borderTopRadius", ShorthandDef.props ["borderTopStartRadius", "borderTopEndRadius"]),
   ("borderBottomRadius", ShorthandDef.props ["borderBottomStartRadius", "borderBottomEndRadius"]),
   ("borderStartRadius", ShorthandDef.props ["borderTopStartRadius", "borderBottomStartRadius"]),
   ("borderEndRadius", ShorthandDef.props ["borderTopEndRadius", "borderBottomEndRadius"]),
   ("translate", ShorthandDef.props ["translateX", "translateY"]),
   ("inset", ShorthandDef.props ["top", "bottom", "insetStart", "insetEnd"]),
   ("insetX", ShorthandDef.props ["insetStart", "insetEnd"]),
   ("insetY", ShorthandDef.props ["top", "bottom"]),
   ("placeItems", ShorthandDef.props ["alignItems", "justifyItems"]),
   ("placeContent", ShorthandDef.props ["alignContent", "justifyContent"]),
   ("placeSelf", ShorthandDef.props ["alignSelf", "justifySelf"]),
   ("gap", ShorthandDef.props ["rowGap", "columnGap"]),
   ("size", ShorthandDef.props ["width", "height"]),
   ("minSize", ShorthandDef.props ["minWidth", "minHeight"]),
   ("maxSize", ShorthandDef.props ["maxWidth", "maxHeight"]),
   ("overflow", ShorthandDef.props ["overflowX", "overflowY"]),
   ("overscrollBehavior", ShorthandDef.props ["overscrollBehaviorX", "overscrollBehaviorY"]),
   ("gridArea", ShorthandDef.props ["gridColumnStart", "gridColumnEnd", "gridRowStart", "gridRowEnd"]),
   ("transition", ShorthandDef.fn transitionShorthand),
   ("animation", ShorthandDef.fn animationShorthand),
   ("truncate", ShorthandDef.fn truncateShorthand)]

/-- Modelled from the spec: the shorthand expander of the style-macro
module (`createTheme`, not under src/). A key registered as a list-form
shorthand broadcasts its value to each base property, a function-form
shorthand contributes exactly the mapping its function returns, and any
other key passes through unchanged. -/
def expandKey (k : String) (v : JSVal) : List (String × JSVal) :=
  match List.lookup k shorthands with
  | some (ShorthandDef.props ps) => ps.map (fun p => (p, v))
  | some (ShorthandDef.fn f) => f v
  | none => [(k, v)]

/-- Modelled from the spec: expansion of a whole style object, processing
the call site keys in order. -/
def expandStyle : List (String × JSVal) → List (String × JSVal)
  | [] => []
  | kv :: rest => expandKey kv.1 kv.2 ++ expandStyle rest

/-- Modelled from the spec: the value resolved for one base property,
last write wins in expansion order. -/
def resolvedValue (style : List (String × JSVal)) (p : String) : Option JSVal :=
  (expandStyle style).foldl (fun acc kv => if kv.1 = p then some kv.2 else acc) none

/-- C3: a call site using the `padding` shorthand at 8 followed by an
explicit `paddingTop` of 16 resolves to paddingTop = 16 with the other
three expanded base properties remaining at 8. -/
theorem C3_padding_shorthand_override :
    resolvedValue [("padding", JSVal.num 8), ("paddingTop", JSVal.num 16)] "paddingTop" =
      some (JSVal.num 16) ∧
    resolvedValue [("padding", JSVal.num 8), ("paddingTop", JSVal.num 16)] "paddingBottom" =
      some (JSVal.num 8) ∧
    resolvedValue [("padding", JSVal.num 8), ("paddingTop", JSVal.num 16)] "paddingStart" =
      some (JSVal.num 8) ∧
    resolvedValue [("padding", JSVal.num 8), ("paddingTop", JSVal.num 16)] "paddingEnd" =
      some (JSVal.num 8) :=
  ⟨rfl, rfl, rfl, rfl⟩

/-- C4: for every input value v, the function-form `transition` shorthand
returns the complete mapping of the transition property plus the implicit
duration 150 and timing-function default, and the expansion of a style
using the shorthand is exactly this mapping and nothing else. -/
theorem C4_transition_shorthand_complete (v : JSVal) :
    transitionShorthand v =
      [("transition", v), ("transitionDuration", JSVal.num 150),
       ("transitionTimingFunction", JSVal.str "default")] ∧
    expandStyle [("transition", v)] = transitionShorthand v :=
  ⟨rfl, rfl⟩

/-- From spectrum-theme.ts: the `conditions` record passed to
`createTheme`, in declaration order. -/
def conditions : List (String × String) :=
  [("forcedColors", "@media (forced-colors: active)"),
   ("touch", "@media not ((hover: hover) and (pointer: fine))"),
   ("sm", "@media (min-width: 640px)"),
   ("md", "@media (min-width: 768px)"),
   ("lg", "@media (min-width: 1024px)"),
   ("xl", "@media (min-width: 1280px)"),
   ("2xl", "@media (min-width: 1536px)")]

/-- The digits of a media fragment, read as its min-width threshold (the
breakpoint fragments contain exactly one number). -/
def extractMinWidth (s : String) : Option Nat :=
  let ds := s.data.filter Char.isDigit
  if ds.isEmpty then none else some (digitsToNat ds)

/-- The breakpoint conditions with their thresholds, in declaration
order. -/
def breakpoints : List (String × Nat) :=
  conditions.filterMap (fun kv => (extractMinWidth kv.2).map (fun n => (kv.1, n)))

/-- Modelled from the spec: the rule compiler of the style-macro module
(not under src/) emits rules for co-occurring conditions in the
declaration order of the conditions record, so a condition's precedence
is its index among the condition names. -/
def conditionPrecedence (c : String) : Option Nat :=
  jsIndexOf c (conditions.map Prod.fst)

/-- C5: the responsive breakpoints are sm 640, md 768, lg 1024, xl 1280,
2xl 1536 (as inclusive min-width media conditions), their thresholds
strictly ascend in declaration order, and the lg rule is emitted after
the sm rule (higher precedence index), so it wins at equal specificity
when both match. -/
theorem C5_breakpoint_order :
    List.lookup "sm" conditions = some "@media (min-width: 640px)" ∧
    List.lookup "md" conditions = some "@media (min-width: 768px)" ∧
    List.lookup "lg" conditions = some "@media (min-width: 1024px)" ∧
    List.lookup "xl" conditions = some "@media (min-width: 1280px)" ∧
    List.lookup "2xl" conditions = some "@media (min-width: 1536px)" ∧
    breakpoints = [("sm", 640), ("md", 768), ("lg", 1024), ("xl", 1280), ("2xl", 1536)] ∧
    List.Chain' (· < ·) (breakpoints.map Prod.snd) ∧
    (∃ i j, conditionPrecedence "sm" = some i ∧ conditionPrecedence "lg" = some j ∧ i < j) := by
  have hbp : breakpoints = [("sm", 640), ("md", 768), ("lg", 1024), ("xl", 1280), ("2xl", 1536)] := by
    decide
  refine ⟨by decide, by decide, by decide, by decide, by decide, hbp, ?_,
    ⟨2, 4, by decide, by decide, by decide⟩⟩
  rw [hbp]
  simp [List.chain'_cons]

end SpectrumTheme
